import Mathlib

/-!
Shallow embedding of the EMG ingestion service.

Sources embedded:
- src/app/models.py      : EmgRecord (pydantic input model), HelloResponse
- src/app/models_db.py   : EmgRecordDB (persisted row: id, timestamp BigInteger,
                           rawValue Numeric, created_at server-assigned)
- src/app/crud.py        : create_emg_records (map records to rows, add_all, commit)
- src/app/api/emg.py     : receive_emg_records / receive_emg_record endpoints,
                           get_db per-request session
- src/app/api/endpoints.py : say_hello

Collaborator semantics (pydantic validation, SQLAlchemy session/commit,
the HTTP status mapping of the framework) are modelled explicitly:
an exact decimal type for pydantic Decimal / SQL Numeric, a Session with
staged and committed rows whose commit is a single all-or-nothing
transaction (a storage failure, or a value outside the BigInteger column
range, aborts the whole batch), and a JSON-shaped wire layer whose parse
failure is a 422 response produced before the handler body runs.
-/

/-- An exact decimal number: mant * 10 ^ (-scale).  Models pydantic
Decimal on the wire and the SQL Numeric column; both are
arbitrary-precision and lossless. -/
structure Dec where
  mant : Int
  scale : Nat
deriving DecidableEq, Repr

/-- The rational value denoted by a Dec; used to state exactness. -/
def Dec.toRat (d : Dec) : ℚ :=
  (d.mant : ℚ) / (10 : ℚ) ^ d.scale

/-- src/app/models.py EmgRecord: the validated wire record. -/
structure EmgRecord where
  timestamp : Int
  rawValue : Dec
deriving DecidableEq, Repr

/-- src/app/models.py HelloResponse. -/
structure HelloResponse where
  message : String
deriving DecidableEq, Repr

/-- src/app/models_db.py EmgRecordDB: a persisted row of emg_records.
created_at is server-assigned at insert time (modelled as a Nat clock). -/
structure EmgRecordDB where
  id : Nat
  timestamp : Int
  rawValue : Dec
  created_at : Nat
deriving DecidableEq, Repr

/-- An EmgRecordDB instance as built in src/app/crud.py before flush:
only timestamp and rawValue are set; id and created_at come from the store. -/
structure PendingRow where
  timestamp : Int
  rawValue : Dec
deriving DecidableEq, Repr

/-- The BigInteger column of emg_records holds 64-bit signed integers;
a value outside this range is a storage-level constraint failure. -/
def fitsInt64b (t : Int) : Bool :=
  decide (-(2 ^ 63) ≤ t ∧ t < 2 ^ 63)

/-- Storage-level failure committing a batch (spec section 7). -/
inductive StorageError
  | commitFailed
deriving DecidableEq, Repr

/-- A SQLAlchemy session as used by get_db: the committed (visible) rows,
the rows staged by add_all but not yet committed, and the surrogate-id
counter of the store. -/
structure Session where
  committed : List EmgRecordDB
  staged : List PendingRow
  nextId : Nat
deriving DecidableEq, Repr

/-- Session.add_all: stage rows without committing. -/
def Session.add_all (db : Session) (rows : List PendingRow) : Session :=
  { db with staged := db.staged ++ rows }

/-- The store materialises staged rows at commit: surrogate ids assigned
monotonically from nextId, created_at set to the commit-time clock. -/
def assignRows (nextId now : Nat) : List PendingRow → List EmgRecordDB
  | [] => []
  | p :: ps =>
      { id := nextId, timestamp := p.timestamp, rawValue := p.rawValue,
        created_at := now } :: assignRows (nextId + 1) now ps

/-- Session.commit: a single transaction.  If storage is healthy and every
staged value satisfies the column constraints, all staged rows become
visible at once; otherwise nothing becomes visible and the caller gets a
StorageError (the transaction aborts as a whole). -/
def Session.commit (db : Session) (now : Nat) (storageOk : Bool) :
    Except StorageError Session :=
  if storageOk && db.staged.all (fun p => fitsInt64b p.timestamp) then
    .ok { committed := db.committed ++ assignRows db.nextId now db.staged,
          staged := [],
          nextId := db.nextId + db.staged.length }
  else
    .error .commitFailed

/-- The list comprehension of src/app/crud.py: EmgRecordDB(timestamp=r.timestamp,
rawValue=r.rawValue). -/
def recordToRow (r : EmgRecord) : PendingRow :=
  { timestamp := r.timestamp, rawValue := r.rawValue }

/-- src/app/crud.py create_emg_records: build one pending row per record,
add_all, commit.  now is the store clock, storageOk models storage health. -/
def create_emg_records (db : Session) (records : List EmgRecord)
    (now : Nat) (storageOk : Bool) : Except StorageError Session :=
  (db.add_all (records.map recordToRow)).commit now storageOk

/-- An HTTP response of this service, with the framework status mapping:
201 for the created confirmations, 422 for a validation failure, 500 for
an unhandled StorageError, 200 for the hello body. -/
inductive ApiResponse
  | created (status : String) (count : Nat)
  | validationFailure
  | serverError
  | okMessage (message : String)
deriving DecidableEq, Repr

/-- HTTP status code of a response. -/
def ApiResponse.code : ApiResponse → Nat
  | .created _ _ => 201
  | .validationFailure => 422
  | .serverError => 500
  | .okMessage _ => 200

/-- src/app/api/emg.py receive_emg_records: the batch handler body, run on
an already-validated list.  Returns status "Data Saved" and count
len(records) on success; an exception from commit escapes the handler and
becomes a server error, the session keeping only its committed rows. -/
def receive_emg_records (records : List EmgRecord) (db : Session)
    (now : Nat) (storageOk : Bool) : ApiResponse × Session :=
  match create_emg_records db records now storageOk with
  | .ok db2 => (.created "Data Saved" records.length, db2)
  | .error _ => (.serverError, db)

/-- src/app/api/emg.py receive_emg_record: the single-record handler body;
wraps the record in a one-element list and returns count 1. -/
def receive_emg_record (record : EmgRecord) (db : Session)
    (now : Nat) (storageOk : Bool) : ApiResponse × Session :=
  match create_emg_records db [record] now storageOk with
  | .ok db2 => (.created "Data Saved" 1, db2)
  | .error _ => (.serverError, db)

/-- A JSON value on the wire.  jnum is an exact decimal literal, whether
sent as a JSON number or as a decimal string (both are accepted for
rawValue and parse to the same Decimal); jstr is a non-numeric string. -/
inductive JsonVal
  | jint (i : Int)
  | jnum (d : Dec)
  | jstr (s : String)
  | jbool (b : Bool)
  | jnull
deriving DecidableEq, Repr

/-- A JSON object on the wire: field name / value pairs. -/
abbrev RawRecord := List (String × JsonVal)

/-- Validation failure: a malformed or incomplete input record. -/
inductive ValidationError
  | invalidField
deriving DecidableEq, Repr

/-- pydantic validation of the timestamp field: required, integer. -/
def parseTimestamp : Option JsonVal → Except ValidationError Int
  | some (.jint i) => .ok i
  | _ => .error .invalidField

/-- pydantic validation of the rawValue field: required, Decimal
(a decimal literal, or an integer coerced losslessly). -/
def parseRawValue : Option JsonVal → Except ValidationError Dec
  | some (.jnum d) => .ok d
  | some (.jint i) => .ok { mant := i, scale := 0 }
  | _ => .error .invalidField

/-- Validate one wire object into an EmgRecord (pydantic model parse). -/
def parse_emg_record (raw : RawRecord) : Except ValidationError EmgRecord := do
  let t ← parseTimestamp (raw.lookup "timestamp")
  let v ← parseRawValue (raw.lookup "rawValue")
  pure { timestamp := t, rawValue := v }

/-- Validate a wire array into a list of EmgRecord: the first malformed
element fails the whole batch (List[EmgRecord] body validation). -/
def parse_emg_batch : List RawRecord → Except ValidationError (List EmgRecord)
  | [] => .ok []
  | r :: rs =>
      match parse_emg_record r with
      | .error err => .error err
      | .ok e =>
          match parse_emg_batch rs with
          | .error err => .error err
          | .ok es => .ok (e :: es)

/-- POST /emg/records end to end: validate the body (422 on failure,
before any storage interaction), then run the batch handler on a
per-request session. -/
def post_emg_records (body : List RawRecord) (db : Session)
    (now : Nat) (storageOk : Bool) : ApiResponse × Session :=
  match parse_emg_batch body with
  | .error _ => (.validationFailure, db)
  | .ok records => receive_emg_records records db now storageOk

/-- POST /emg/record end to end: validate the body, then run the
single-record handler. -/
def post_emg_record (body : RawRecord) (db : Session)
    (now : Nat) (storageOk : Bool) : ApiResponse × Session :=
  match parse_emg_record body with
  | .error _ => (.validationFailure, db)
  | .ok record => receive_emg_record record db now storageOk

/-- src/app/api/endpoints.py say_hello: format the greeting. -/
def say_hello (name : String) : HelloResponse :=
  { message := "Hello, " ++ name ++ "!" }

/-- GET /hello end to end: the optional query parameter defaults to
"World"; the response is 200 with the greeting body. -/
def get_hello (name : Option String) : ApiResponse :=
  .okMessage (say_hello (name.getD "World")).message

lemma assignRows_length (nextId now : Nat) (ps : List PendingRow) :
    (assignRows nextId now ps).length = ps.length := by
  induction ps generalizing nextId with
  | nil => rfl
  | cons p ps ih => simp [assignRows, ih]

lemma assignRows_fields (nextId now : Nat) (ps : List PendingRow) :
    (assignRows nextId now ps).map (fun row => (row.timestamp, row.rawValue))
      = ps.map (fun p => (p.timestamp, p.rawValue)) := by
  induction ps generalizing nextId with
  | nil => rfl
  | cons p ps ih => simp [assignRows, ih]

lemma assignRows_created_at (nextId now : Nat) (ps : List PendingRow) :
    ∀ row ∈ assignRows nextId now ps, row.created_at = now := by
  induction ps generalizing nextId with
  | nil => intro row h; cases h
  | cons p ps ih =>
      intro row h
      cases h with
      | head => rfl
      | tail _ h => exact ih (nextId + 1) row h

lemma assignRows_ids (nextId now : Nat) (ps : List PendingRow) :
    (assignRows nextId now ps).map (fun row => row.id)
      = List.range' nextId ps.length := by
  induction ps generalizing nextId with
  | nil => rfl
  | cons p ps ih => simp [assignRows, List.range', ih]

lemma create_emg_records_ok (db : Session) (records : List EmgRecord)
    (now : Nat) (hstg : db.staged = [])
    (hwf : ∀ r ∈ records, fitsInt64b r.timestamp = true) :
    create_emg_records db records now true
      = Except.ok { committed := db.committed
                      ++ assignRows db.nextId now (records.map recordToRow),
                    staged := [],
                    nextId := db.nextId + records.length } := by
  unfold create_emg_records Session.add_all Session.commit
  have hall : ((records.map recordToRow).all
      fun p => fitsInt64b p.timestamp) = true := by
    simp only [List.all_eq_true, List.mem_map]
    rintro p ⟨r, hr, rfl⟩
    exact hwf r hr
  simp only [hstg, List.nil_append, hall, Bool.true_and]
  simp [List.length_map]

lemma create_emg_records_cases (db : Session) (records : List EmgRecord)
    (now : Nat) (storageOk : Bool) (hstg : db.staged = []) :
    create_emg_records db records now storageOk
        = Except.ok { committed := db.committed
                        ++ assignRows db.nextId now (records.map recordToRow),
                      staged := [],
                      nextId := db.nextId + records.length }
    ∨ create_emg_records db records now storageOk
        = Except.error StorageError.commitFailed := by
  unfold create_emg_records Session.add_all Session.commit
  split
  · left; simp [hstg, List.length_map]
  · right; rfl

lemma parse_emg_batch_error_of_mem (body : List RawRecord) (r : RawRecord)
    (hmem : r ∈ body)
    (herr : parse_emg_record r = Except.error ValidationError.invalidField) :
    parse_emg_batch body = Except.error ValidationError.invalidField := by
  induction body with
  | nil => cases hmem
  | cons b bs ih =>
      cases hmem with
      | head =>
          simp [parse_emg_batch, herr]
      | tail _ hmem =>
          cases hb : parse_emg_record b with
          | error e =>
              cases e
              simp [parse_emg_batch, hb]
          | ok e =>
              simp [parse_emg_batch, hb, ih hmem]

/-- C1: for every sequence of N well-formed EmgRecord values submitted to the
batch endpoint (N ≥ 0, the empty sequence included), exactly N new rows are
persisted and the response is a 201 created confirmation whose count is N. -/
theorem batch_endpoint_persists_n_rows (body : List RawRecord)
    (records : List EmgRecord) (db : Session) (now : Nat)
    (hstg : db.staged = [])
    (hparse : parse_emg_batch body = Except.ok records)
    (hwf : ∀ r ∈ records, fitsInt64b r.timestamp = true) :
    (post_emg_records body db now true).1
        = ApiResponse.created "Data Saved" records.length
    ∧ ((post_emg_records body db now true).1).code = 201
    ∧ (post_emg_records body db now true).2.committed
        = db.committed ++ assignRows db.nextId now (records.map recordToRow)
    ∧ (post_emg_records body db now true).2.committed.length
        = db.committed.length + records.length := by
  have hok := create_emg_records_ok db records now hstg hwf
  simp only [post_emg_records, hparse, receive_emg_records, hok]
  simp [ApiResponse.code, assignRows_length]

/-- Witness for C1 at a two-element well-formed batch and at the empty batch. -/
theorem batch_endpoint_persists_n_rows_witness :
    ((post_emg_records
        [[("timestamp", JsonVal.jint 1000), ("rawValue", JsonVal.jnum ⟨5, 1⟩)],
         [("timestamp", JsonVal.jint 2000), ("rawValue", JsonVal.jint 3)]]
        { committed := [], staged := [], nextId := 0 } 7 true).1
          = ApiResponse.created "Data Saved" 2
      ∧ ((post_emg_records
          [[("timestamp", JsonVal.jint 1000), ("rawValue", JsonVal.jnum ⟨5, 1⟩)],
           [("timestamp", JsonVal.jint 2000), ("rawValue", JsonVal.jint 3)]]
          { committed := [], staged := [], nextId := 0 } 7 true).1).code = 201
      ∧ (post_emg_records
          [[("timestamp", JsonVal.jint 1000), ("rawValue", JsonVal.jnum ⟨5, 1⟩)],
           [("timestamp", JsonVal.jint 2000), ("rawValue", JsonVal.jint 3)]]
          { committed := [], staged := [], nextId := 0 } 7 true).2.committed
          = [{ id := 0, timestamp := 1000, rawValue := ⟨5, 1⟩, created_at := 7 },
             { id := 1, timestamp := 2000, rawValue := ⟨3, 0⟩, created_at := 7 }]
      ∧ (post_emg_records
          [[("timestamp", JsonVal.jint 1000), ("rawValue", JsonVal.jnum ⟨5, 1⟩)],
           [("timestamp", JsonVal.jint 2000), ("rawValue", JsonVal.jint 3)]]
          { committed := [], staged := [], nextId := 0 } 7 true).2.committed.length = 2)
    ∧ ((post_emg_records [] { committed := [], staged := [], nextId := 0 } 7 true).1
          = ApiResponse.created "Data Saved" 0
      ∧ ((post_emg_records []
          { committed := [], staged := [], nextId := 0 } 7 true).1).code = 201
      ∧ (post_emg_records []
          { committed := [], staged := [], nextId := 0 } 7 true).2.committed = []
      ∧ (post_emg_records []
          { committed := [], staged := [], nextId := 0 } 7 true).2.committed.length = 0) :=
  ⟨batch_endpoint_persists_n_rows _
      [{ timestamp := 1000, rawValue := ⟨5, 1⟩ },
       { timestamp := 2000, rawValue := ⟨3, 0⟩ }] _ 7 rfl rfl (by decide),
   batch_endpoint_persists_n_rows [] [] _ 7 rfl rfl (by decide)⟩

/-- C2: the batch append is atomic per call: either every record of the call
becomes a visible row in one commit, or on a storage-level failure none do,
the visible state is unchanged (full rollback) and the caller gets a
StorageError surfaced as a 500 server error; there is no partial commit. -/
theorem storage_append_atomic (body : List RawRecord) (records : List EmgRecord)
    (db : Session) (now : Nat) (storageOk : Bool)
    (hstg : db.staged = [])
    (hparse : parse_emg_batch body = Except.ok records) :
    (∃ db2, create_emg_records db records now storageOk = Except.ok db2
        ∧ db2.committed
            = db.committed ++ assignRows db.nextId now (records.map recordToRow)
        ∧ post_emg_records body db now storageOk
            = (ApiResponse.created "Data Saved" records.length, db2))
    ∨ (create_emg_records db records now storageOk
          = Except.error StorageError.commitFailed
        ∧ post_emg_records body db now storageOk = (ApiResponse.serverError, db)
        ∧ ApiResponse.code ApiResponse.serverError = 500) := by
  rcases create_emg_records_cases db records now storageOk hstg with h | h
  · left
    exact ⟨_, h, rfl, by simp only [post_emg_records, hparse, receive_emg_records, h]⟩
  · right
    exact ⟨h, by simp only [post_emg_records, hparse, receive_emg_records, h], rfl⟩

/-- Witness for C2 at a one-element batch with failing storage: the rollback
branch of the disjunction holds. -/
theorem storage_append_atomic_witness :
    (∃ db2, create_emg_records { committed := [], staged := [], nextId := 0 }
          [{ timestamp := 1000, rawValue := ⟨5, 1⟩ }] 7 false = Except.ok db2
        ∧ db2.committed
            = [] ++ assignRows 0 7
                ([{ timestamp := 1000, rawValue := ⟨5, 1⟩ }].map recordToRow)
        ∧ post_emg_records
            [[("timestamp", JsonVal.jint 1000), ("rawValue", JsonVal.jnum ⟨5, 1⟩)]]
            { committed := [], staged := [], nextId := 0 } 7 false
            = (ApiResponse.created "Data Saved" 1, db2))
    ∨ (create_emg_records { committed := [], staged := [], nextId := 0 }
          [{ timestamp := 1000, rawValue := ⟨5, 1⟩ }] 7 false
          = Except.error StorageError.commitFailed
        ∧ post_emg_records
            [[("timestamp", JsonVal.jint 1000), ("rawValue", JsonVal.jnum ⟨5, 1⟩)]]
            { committed := [], staged := [], nextId := 0 } 7 false
            = (ApiResponse.serverError, { committed := [], staged := [], nextId := 0 })
        ∧ ApiResponse.code ApiResponse.serverError = 500) :=
  storage_append_atomic _ [{ timestamp := 1000, rawValue := ⟨5, 1⟩ }] _ 7 false rfl rfl

/-- C3: a batch containing at least one malformed record is rejected whole
with a validation failure mapped to a 422 client error; the session is
unchanged, so zero rows are persisted and the error never reaches storage. -/
theorem malformed_batch_rejected (body : List RawRecord) (db : Session)
    (now : Nat) (storageOk : Bool) (r : RawRecord) (hmem : r ∈ body)
    (hbad : parse_emg_record r = Except.error ValidationError.invalidField) :
    parse_emg_batch body = Except.error ValidationError.invalidField
    ∧ post_emg_records body db now storageOk = (ApiResponse.validationFailure, db)
    ∧ ApiResponse.code ApiResponse.validationFailure = 422 := by
  have h := parse_emg_batch_error_of_mem body r hmem hbad
  exact ⟨h, by simp only [post_emg_records, h], rfl⟩

/-- Witness for C3: a batch of one well-formed record and one record missing
the rawValue field is rejected with 422 and persists nothing. -/
theorem malformed_batch_rejected_witness :
    parse_emg_batch
        [[("timestamp", JsonVal.jint 1000), ("rawValue", JsonVal.jnum ⟨5, 1⟩)],
         [("timestamp", JsonVal.jint 2000)]]
        = Except.error ValidationError.invalidField
    ∧ post_emg_records
        [[("timestamp", JsonVal.jint 1000), ("rawValue", JsonVal.jnum ⟨5, 1⟩)],
         [("timestamp", JsonVal.jint 2000)]]
        { committed := [], staged := [], nextId := 0 } 7 true
        = (ApiResponse.validationFailure, { committed := [], staged := [], nextId := 0 })
    ∧ ApiResponse.code ApiResponse.validationFailure = 422 :=
  malformed_batch_rejected _ _ 7 true [("timestamp", JsonVal.jint 2000)]
    (by simp) rfl

/-- C4: for every validated batch the Storage Writer maps each EmgRecord to
exactly one row, copying timestamp and rawValue verbatim, leaves created_at
to the store, and commits all rows in one transaction; no transformation,
deduplication or reordering happens: the field sequence of the new rows is
exactly the field sequence of the input records. -/
theorem storage_writer_maps_verbatim (records : List EmgRecord) (db : Session)
    (now : Nat) (hstg : db.staged = [])
    (hwf : ∀ r ∈ records, fitsInt64b r.timestamp = true) :
    ∃ db2 newRows,
      create_emg_records db records now true = Except.ok db2
      ∧ db2.committed = db.committed ++ newRows
      ∧ newRows.map (fun row => (row.timestamp, row.rawValue))
          = records.map (fun r => (r.timestamp, r.rawValue))
      ∧ (∀ row ∈ newRows, row.created_at = now)
      ∧ newRows.map (fun row => row.id) = List.range' db.nextId records.length
      ∧ db2.staged = [] := by
  have hok := create_emg_records_ok db records now hstg hwf
  refine ⟨_, assignRows db.nextId now (records.map recordToRow),
    hok, rfl, ?_, assignRows_created_at _ _ _, ?_, rfl⟩
  · rw [assignRows_fields, List.map_map]
    rfl
  · rw [assignRows_ids, List.length_map]

/-- Witness for C4 at a concrete two-element batch. -/
theorem storage_writer_maps_verbatim_witness :
    ∃ db2 newRows,
      create_emg_records { committed := [], staged := [], nextId := 5 }
          [{ timestamp := 10, rawValue := ⟨25, 2⟩ },
           { timestamp := -4, rawValue := ⟨7, 0⟩ }] 9 true = Except.ok db2
      ∧ db2.committed = [] ++ newRows
      ∧ newRows.map (fun row => (row.timestamp, row.rawValue))
          = [((10 : Int), (⟨25, 2⟩ : Dec)), ((-4 : Int), (⟨7, 0⟩ : Dec))]
      ∧ (∀ row ∈ newRows, row.created_at = 9)
      ∧ newRows.map (fun row => row.id) = List.range' 5 2
      ∧ db2.staged = [] :=
  storage_writer_maps_verbatim
    [{ timestamp := 10, rawValue := ⟨25, 2⟩ },
     { timestamp := -4, rawValue := ⟨7, 0⟩ }] _ 9 rfl (by decide)

/-- C5: submitting a valid record through the single-record endpoint and as a
one-element batch produce exactly the same response and the same persisted
state (so in particular the same row fields). -/
theorem single_equals_singleton_batch (body : RawRecord) (db : Session)
    (now : Nat) (storageOk : Bool) :
    post_emg_record body db now storageOk
      = post_emg_records [body] db now storageOk := by
  cases h : parse_emg_record body with
  | error e =>
      simp [post_emg_record, post_emg_records, parse_emg_batch, h]
  | ok record =>
      simp [post_emg_record, post_emg_records, parse_emg_batch, h,
        receive_emg_record, receive_emg_records]

/-- C6: submitting one valid EmgRecord to the single-record endpoint returns
201 with status Data Saved and count 1, and persists exactly one new row
carrying the submitted timestamp and rawValue. -/
theorem single_record_created (body : RawRecord) (record : EmgRecord)
    (db : Session) (now : Nat) (hstg : db.staged = [])
    (hparse : parse_emg_record body = Except.ok record)
    (hwf : fitsInt64b record.timestamp = true) :
    post_emg_record body db now true
      = (ApiResponse.created "Data Saved" 1,
         { committed := db.committed
             ++ [{ id := db.nextId, timestamp := record.timestamp,
                   rawValue := record.rawValue, created_at := now }],
           staged := [], nextId := db.nextId + 1 })
    ∧ ApiResponse.code (ApiResponse.created "Data Saved" 1) = 201 := by
  have hwf1 : ∀ r ∈ [record], fitsInt64b r.timestamp = true := by
    intro r hr
    cases hr with
    | head => exact hwf
    | tail _ hr => cases hr
  have hok := create_emg_records_ok db [record] now hstg hwf1
  refine ⟨?_, rfl⟩
  simp only [post_emg_record, hparse, receive_emg_record, hok]
  rfl

/-- Witness for C6: the concrete scenario timestamp 1000, rawValue 0.5. -/
theorem single_record_created_witness :
    post_emg_record
        [("timestamp", JsonVal.jint 1000), ("rawValue", JsonVal.jnum ⟨5, 1⟩)]
        { committed := [], staged := [], nextId := 0 } 7 true
      = (ApiResponse.created "Data Saved" 1,
         { committed := [{ id := 0, timestamp := 1000, rawValue := ⟨5, 1⟩,
                           created_at := 7 }],
           staged := [], nextId := 1 })
    ∧ ApiResponse.code (ApiResponse.created "Data Saved" 1) = 201 :=
  single_record_created _ { timestamp := 1000, rawValue := ⟨5, 1⟩ } _ 7
    rfl rfl (by decide)

/-- C7: the rawValue of a submitted record is persisted exactly: the stored
row carries the very same decimal, so its rational value is numerically
identical to the input with no floating-point rounding. -/
theorem rawvalue_roundtrip_exact (body : RawRecord) (record : EmgRecord)
    (db : Session) (now : Nat) (hstg : db.staged = [])
    (hparse : parse_emg_record body = Except.ok record)
    (hwf : fitsInt64b record.timestamp = true) :
    ∃ row : EmgRecordDB,
      (post_emg_record body db now true).2.committed = db.committed ++ [row]
      ∧ row.rawValue = record.rawValue
      ∧ row.rawValue.toRat = record.rawValue.toRat := by
  have h := (single_record_created body record db now hstg hparse hwf).1
  refine ⟨{ id := db.nextId, timestamp := record.timestamp,
            rawValue := record.rawValue, created_at := now }, ?_, rfl, rfl⟩
  rw [h]

/-- Witness for C7 at the decimal 0.123456789012345: the stored value equals
the input exactly as a rational number. -/
theorem rawvalue_roundtrip_exact_witness :
    ∃ row : EmgRecordDB,
      (post_emg_record
          [("timestamp", JsonVal.jint 1000),
           ("rawValue", JsonVal.jnum ⟨123456789012345, 15⟩)]
          { committed := [], staged := [], nextId := 0 } 7 true).2.committed
        = [] ++ [row]
      ∧ row.rawValue = ⟨123456789012345, 15⟩
      ∧ row.rawValue.toRat = Dec.toRat ⟨123456789012345, 15⟩ :=
  rawvalue_roundtrip_exact _
    { timestamp := 1000, rawValue := ⟨123456789012345, 15⟩ } _ 7
    rfl rfl (by decide)

/-- C8: every timestamp in the 64-bit signed range, boundary values included,
passes validation (which imposes no bound of its own) and is stored without
truncation: the persisted row carries exactly the submitted timestamp. -/
theorem timestamp_int64_boundary_stored (t : Int) (d : Dec) (db : Session)
    (now : Nat) (hstg : db.staged = [])
    (hlo : -(2 ^ 63) ≤ t) (hhi : t < 2 ^ 63) :
    parseTimestamp (some (JsonVal.jint t)) = Except.ok t
    ∧ ∃ db2,
        create_emg_records db [{ timestamp := t, rawValue := d }] now true
          = Except.ok db2
        ∧ db2.committed = db.committed
            ++ [{ id := db.nextId, timestamp := t, rawValue := d,
                  created_at := now }] := by
  refine ⟨rfl, ?_⟩
  have hwf : ∀ r ∈ [({ timestamp := t, rawValue := d } : EmgRecord)],
      fitsInt64b r.timestamp = true := by
    intro r hr
    cases hr with
    | head =>
        simp only [fitsInt64b, decide_eq_true_eq]
        exact ⟨hlo, hhi⟩
    | tail _ hr => cases hr
  exact ⟨_, create_emg_records_ok db [{ timestamp := t, rawValue := d }] now hstg hwf, rfl⟩

/-- Witness for C8 at both boundary values of the 64-bit signed range. -/
theorem timestamp_int64_boundary_stored_witness :
    (parseTimestamp (some (JsonVal.jint (2 ^ 63 - 1))) = Except.ok (2 ^ 63 - 1)
      ∧ ∃ db2,
          create_emg_records { committed := [], staged := [], nextId := 0 }
              [{ timestamp := 2 ^ 63 - 1, rawValue := ⟨5, 1⟩ }] 7 true
            = Except.ok db2
          ∧ db2.committed = [] ++ [(⟨0, 2 ^ 63 - 1, ⟨5, 1⟩, 7⟩ : EmgRecordDB)])
    ∧ (parseTimestamp (some (JsonVal.jint (-(2 ^ 63)))) = Except.ok (-(2 ^ 63))
      ∧ ∃ db2,
          create_emg_records { committed := [], staged := [], nextId := 0 }
              [{ timestamp := -(2 ^ 63), rawValue := ⟨5, 1⟩ }] 7 true
            = Except.ok db2
          ∧ db2.committed = [] ++ [(⟨0, -(2 ^ 63), ⟨5, 1⟩, 7⟩ : EmgRecordDB)]) :=
  ⟨timestamp_int64_boundary_stored (2 ^ 63 - 1) ⟨5, 1⟩ _ 7 rfl (by decide) (by decide),
   timestamp_int64_boundary_stored (-(2 ^ 63)) ⟨5, 1⟩ _ 7 rfl (by decide) (by decide)⟩

/-- C9: GET /hello with name X answers 200 with message Hello, X!, and with
the parameter omitted the default is World, yielding Hello, World!. -/
theorem hello_greeting (X : String) :
    get_hello (some X) = ApiResponse.okMessage ("Hello, " ++ X ++ "!")
    ∧ ApiResponse.code (get_hello (some X)) = 200
    ∧ get_hello none = ApiResponse.okMessage "Hello, World!"
    ∧ say_hello X = { message := "Hello, " ++ X ++ "!" } :=
  ⟨rfl, rfl, rfl, rfl⟩

/-- C10: the Storage Writer inserts rows in exactly the input order: the i-th
new row is built from the i-th input record for every index, and duplicate
input records each produce a row of their own (row count equals input
length). -/
theorem rows_staged_in_input_order (records : List EmgRecord) (db : Session)
    (now : Nat) (hstg : db.staged = [])
    (hwf : ∀ r ∈ records, fitsInt64b r.timestamp = true) :
    ∃ db2 newRows,
      create_emg_records db records now true = Except.ok db2
      ∧ db2.committed = db.committed ++ newRows
      ∧ newRows.length = records.length
      ∧ ∀ i (h1 : i < newRows.length) (h2 : i < records.length),
          newRows[i].timestamp = records[i].timestamp
          ∧ newRows[i].rawValue = records[i].rawValue := by
  have hok := create_emg_records_ok db records now hstg hwf
  refine ⟨_, assignRows db.nextId now (records.map recordToRow), hok, rfl, ?_, ?_⟩
  · rw [assignRows_length, List.length_map]
  · have hmap : (assignRows db.nextId now (records.map recordToRow)).map
        (fun row => (row.timestamp, row.rawValue))
        = records.map (fun r => (r.timestamp, r.rawValue)) := by
      rw [assignRows_fields, List.map_map]
      rfl
    intro i h1 h2
    have h3 := congrArg (fun l => l[i]?) hmap
    simp only [List.getElem?_map] at h3
    rw [List.getElem?_eq_getElem h1, List.getElem?_eq_getElem h2] at h3
    simp only [Option.map_some', Option.some.injEq, Prod.mk.injEq] at h3
    exact h3

/-- Witness for C10 at a batch with a duplicated record: two identical input
records produce two rows, in input order. -/
theorem rows_staged_in_input_order_witness :
    ∃ db2 newRows,
      create_emg_records { committed := [], staged := [], nextId := 0 }
          [{ timestamp := 42, rawValue := ⟨5, 1⟩ },
           { timestamp := 42, rawValue := ⟨5, 1⟩ }] 7 true = Except.ok db2
      ∧ db2.committed = [] ++ newRows
      ∧ newRows.length =
          ([{ timestamp := 42, rawValue := ⟨5, 1⟩ },
            { timestamp := 42, rawValue := ⟨5, 1⟩ }] : List EmgRecord).length
      ∧ ∀ i (h1 : i < newRows.length)
          (h2 : i < ([{ timestamp := 42, rawValue := ⟨5, 1⟩ },
                      { timestamp := 42, rawValue := ⟨5, 1⟩ }] : List EmgRecord).length),
          newRows[i].timestamp
              = ([{ timestamp := 42, rawValue := ⟨5, 1⟩ },
                  { timestamp := 42, rawValue := ⟨5, 1⟩ }] : List EmgRecord)[i].timestamp
          ∧ newRows[i].rawValue
              = ([{ timestamp := 42, rawValue := ⟨5, 1⟩ },
                  { timestamp := 42, rawValue := ⟨5, 1⟩ }] : List EmgRecord)[i].rawValue :=
  rows_staged_in_input_order
    [{ timestamp := 42, rawValue := ⟨5, 1⟩ },
     { timestamp := 42, rawValue := ⟨5, 1⟩ }] _ 7 rfl (by decide)
